import Mathlib

/-!
Verification of the runway cfngin hook lifecycle and stack-action
status-polling engine, together with the Terraform release checksum
verification step of the toolchain-version resolver.

The polling engine (runway/cfngin/hooks/base.py and
runway/cfngin/status.py) is not present in this snapshot; its behaviour
is modelled from the specification (sections 3, 4.2, 4.3) and pinned by
the unit tests in src/tests/unit/cfngin/hooks/test_base.py.  The action
objects are modelled by the finite sequence of Status values their `run`
method yields across successive polls (the tests drive them with mocked
side-effect lists), so the polling loop is a structural recursion on
that sequence; exhausting the sequence corresponds to a run that would
keep polling.  The checksum step is embedded directly from
src/runway/env_mgr/tfenv.py.
-/

namespace Runway

/-- Modelled from the spec: the four status names of the state machine
(section 4.1); COMPLETE, FAILED, SKIPPED are terminal, SUBMITTED is
transitional. -/
inductive StatusName where
  | submitted
  | complete
  | skipped
  | failed
deriving DecidableEq, Repr

/-- Modelled from the spec: a Status is an immutable value consisting of
a name and an optional free-text reason (section 3). -/
structure Status where
  name : StatusName
  reason : Option String
deriving DecidableEq, Repr

/-- Modelled from the spec: the reasonless transitional constant. -/
def SUBMITTED : Status := ⟨StatusName.submitted, none⟩

/-- Modelled from the spec: the reasonless terminal success constant. -/
def COMPLETE : Status := ⟨StatusName.complete, none⟩

/-- Modelled from the spec: the reasonless terminal skip constant. -/
def SKIPPED : Status := ⟨StatusName.skipped, none⟩

/-- Modelled from the spec: the reasonless terminal failure constant. -/
def FAILED : Status := ⟨StatusName.failed, none⟩

/-- Modelled from the spec: a transitional status carrying a reason. -/
def SubmittedStatus (r : String) : Status := ⟨StatusName.submitted, some r⟩

/-- Modelled from the spec: a terminal success status carrying a reason. -/
def CompleteStatus (r : String) : Status := ⟨StatusName.complete, some r⟩

/-- The printable form of a status name, as used in log summaries. -/
def statusNameStr : StatusName → String
  | StatusName.submitted => "submitted"
  | StatusName.complete => "complete"
  | StatusName.skipped => "skipped"
  | StatusName.failed => "failed"

/-- Modelled from the spec: the public equality operator on Status.  The
unit tests compare a reason-carrying result against a reasonless
constant with == and expect equality, so the operator compares the name
only and ignores the reason. -/
def statusBEq (a b : Status) : Bool := decide (a.name = b.name)

/-- Modelled from the spec: the change-detection comparison of the
polling loop, which considers two Status values equal iff both name and
reason match (section 3). -/
def sameStatus (a b : Status) : Bool :=
  decide (a.name = b.name) && decide (a.reason = b.reason)

/-- Whether a newly observed status differs from the last-observed one
(an absent last-observed status always counts as a change). -/
def statusChanged (last : Option Status) (s : Status) : Bool :=
  match last with
  | none => true
  | some l => !(sameStatus l s)

/-- Modelled from the spec: early-exit test of the polling loop — true
iff a till_reason string was supplied and the status's reason equals
it (section 4.2, rule 3). -/
def tillMatch (till : Option String) (s : Status) : Bool :=
  match till with
  | some t => decide (s.reason = some t)
  | none => false

/-- Modelled from the spec: one log summary line,
"<stack-name>:<status-name>", or
"<stack-name>:<status-name> (<reason>)" when a reason is present
(section 4.3). -/
def reasonSuffix : Option String → String
  | none => ""
  | some r => " (" ++ r ++ ")"

/-- Modelled from the spec: render one status summary log line for a
stack. -/
def logStack (stackName : String) (s : Status) : String :=
  stackName ++ (":" ++ statusNameStr s.name ++ reasonSuffix s.reason)

/-- Modelled from the spec: the wait-for-completion protocol
`_wait_for_stack` (section 4.2).  The action is represented by the list
of Status values its successive `run` calls return.  On each poll:
log a transition line only when the status differs (by name and reason)
from the last-observed one; stop and return the status when it is
terminal; stop and return it early when its reason equals the supplied
till_reason; otherwise keep polling with the last-observed status
updated.  Returns the emitted log lines, the returned status (none when
the run sequence is exhausted while still polling), and the run results
never consumed. -/
def waitForStack (stackName : String) (till : Option String) :
    List Status → Option Status → List String × Option Status × List Status
  | [], _ => ([], none, [])
  | status :: rest, last =>
    let logs : List String :=
      if statusChanged last status then [logStack stackName status] else []
    if status.name = StatusName.submitted then
      if tillMatch till status then (logs, some status, rest)
      else
        let r := waitForStack stackName till rest (some status)
        (logs ++ r.1, r.2.1, r.2.2)
    else (logs, some status, rest)

/-- Outcome of deploy_stack / destroy_stack: a returned Status, the
raised StackFailed error carrying the stack name and the failure
reason, or an exhausted run sequence (the engine would still be
polling). -/
inductive HookResult where
  | ok (status : Status)
  | stackFailed (stackName : String) (reason : Option String)
  | outOfPolls
deriving DecidableEq, Repr

/-- Modelled from the spec: the shared engine behind deploy_stack and
destroy_stack (section 4.3).  Run the action once and log the result;
if it is terminal, return it immediately (raising StackFailed when it
is FAILED); if it is transitional and wait is false, return it as-is;
otherwise log the "waiting for stack to complete..." notice and
delegate to the polling protocol with last_status seeded to the first
observed status, raising StackFailed when the loop ends FAILED.
Returns the emitted log lines, the outcome, and the run results never
consumed. -/
def runActionLoop (stackName : String) (wait : Bool) :
    List Status → List String × HookResult × List Status
  | [] => ([], HookResult.outOfPolls, [])
  | status :: rest =>
    let l1 := logStack stackName status
    if status.name = StatusName.submitted then
      if wait then
        let w := waitForStack stackName none rest (some status)
        let logs := l1 :: "waiting for stack to complete..." :: w.1
        match w.2.1 with
        | some final =>
          if final.name = StatusName.failed then
            (logs, HookResult.stackFailed stackName final.reason, w.2.2)
          else (logs, HookResult.ok final, w.2.2)
        | none => (logs, HookResult.outOfPolls, w.2.2)
      else ([l1], HookResult.ok status, rest)
    else
      if status.name = StatusName.failed then
        ([l1], HookResult.stackFailed stackName status.reason, rest)
      else ([l1], HookResult.ok status, rest)

/-- Modelled from the spec: Hook.deploy_stack drives the build action
through the shared engine. -/
def deployStack : String → Bool → List Status → List String × HookResult × List Status :=
  runActionLoop

/-- Modelled from the spec: Hook.destroy_stack drives the destroy action
through the same shared engine. -/
def destroyStack : String → Bool → List Status → List String × HookResult × List Status :=
  runActionLoop

/-- Modelled from the spec: the hook's validated tags argument — the
constructor applies setdefault so a hook built with no explicit tags
argument gets the empty mapping (section 3). -/
def hookArgTags (explicitTags : Option (List (String × String))) :
    List (String × String) :=
  explicitTags.getD []

/-- Modelled from the spec: the merged ordered tag set exposed by
hook.tags — hook-local entries first, context-wide entries appended,
and on key collision the hook-local value wins (section 3 invariant). -/
def hookTags (argTags ctxTags : List (String × String)) :
    List (String × String) :=
  argTags ++ ctxTags.filter (fun kv => argTags.all (fun a => decide (a.fst ≠ kv.fst)))

/-- Modelled from the spec: HookStackDefinition (StackProxy) — a named
placeholder stack carrying its required name plus any additional
attributes explicitly supplied at construction (section 3). -/
structure HookStackDefinition where
  name : String
  extra : List (String × String)
deriving DecidableEq, Repr

/-- Modelled from the spec: attribute lookup on a StackProxy — the name,
or an explicitly supplied extra attribute; none models the
AttributeError raised for any attribute not set at construction. -/
def HookStackDefinition.getAttr (d : HookStackDefinition) (attrName : String) :
    Option String :=
  if attrName = "name" then some d.name
  else (d.extra.find? (fun kv => decide (kv.fst = attrName))).map Prod.snd

/-- Observable effects of the tail of download_tf_release
(src/runway/env_mgr/tfenv.py) after the archive and the SHA256SUMS file
have been downloaded. -/
inductive TfStep where
  | logError
  | exitProgram (code : Nat)
  | mkdirVersionDir
  | extractArchive
  | closeZip
  | removeTempDir
  | chmodExecutable
deriving DecidableEq, Repr

/-- Embedding of the verification tail of download_tf_release
(src/runway/env_mgr/tfenv.py, lines 65-78).  tf_hash is the digest
listed for the archive's filename in the downloaded SHA256SUMS file
(get_hash_for_filename) and archive_sha256 is the SHA-256 digest of the
downloaded archive (sha256sum); both helpers live outside this
snapshot, so the two digests are taken as inputs.  On mismatch the
function logs an error and exits with status 1; on match it creates the
version directory, extracts the archive into it, and makes the binary
executable. -/
def download_tf_release (tf_hash archive_sha256 : String) : List TfStep :=
  if tf_hash ≠ archive_sha256 then
    [TfStep.logError, TfStep.exitProgram 1]
  else
    [TfStep.mkdirVersionDir, TfStep.extractArchive, TfStep.closeZip,
     TfStep.removeTempDir, TfStep.chmodExecutable]

/-- Helper: the shared engine never returns a FAILED status as an ok
outcome — a FAILED report is always converted to a StackFailed error,
whether it arrives on the first run or out of the polling loop. -/
theorem runActionLoop_ok_not_failed (n : String) (wait : Bool) (runs : List Status)
    (s : Status) (h : (runActionLoop n wait runs).2.1 = HookResult.ok s) :
    s.name ≠ StatusName.failed := by
  cases runs with
  | nil => simp [runActionLoop] at h
  | cons status rest =>
    simp only [runActionLoop] at h
    by_cases h1 : status.name = StatusName.submitted
    · rw [if_pos h1] at h
      cases wait with
      | false =>
        simp at h
        rw [← h]
        simp [h1]
      | true =>
        simp only [if_pos rfl] at h
        cases hw : (waitForStack n none rest (some status)).2.1 with
        | none => simp [hw] at h
        | some final =>
          simp only [hw] at h
          by_cases hf : final.name = StatusName.failed
          · simp [hf] at h
          · simp [hf] at h
            rw [← h]
            exact hf
    · rw [if_neg h1] at h
      by_cases hf : status.name = StatusName.failed
      · simp [hf] at h
      · simp [hf] at h
        rw [← h]
        exact hf

/-- Claim C1: with a build action whose run returns SUBMITTED on the
first call and COMPLETE on the second, deploy_stack with wait=true
returns COMPLETE and emits exactly three log lines in order — the
SUBMITTED summary, the waiting notice, and the COMPLETE summary. -/
theorem claim1_deploy_wait_three_logs :
    ∀ n : String, deployStack n true [SUBMITTED, COMPLETE] =
      ([n ++ ":submitted", "waiting for stack to complete...", n ++ ":complete"],
       HookResult.ok COMPLETE, []) :=
  fun _ => rfl

/-- Claim C2: when a till_reason string is supplied, the
wait-for-completion protocol stops and returns the first status whose
reason equals till_reason — even a transitional SUBMITTED one — leaving
the remaining run results (including any later terminal status)
unpolled. -/
theorem claim2_wait_till_reason (n t : String) (pre : List Status) (s : Status)
    (rest : List Status) (last : Option Status)
    (hpre : ∀ x ∈ pre, x.name = StatusName.submitted ∧ x.reason ≠ some t)
    (hs : s.reason = some t) :
    (waitForStack n (some t) (pre ++ s :: rest) last).2 = (some s, rest) := by
  induction pre generalizing last with
  | nil =>
    by_cases hname : s.name = StatusName.submitted
    · simp [waitForStack, hname, tillMatch, hs]
    · simp [waitForStack, hname]
  | cons x xs ih =>
    have hx : x.name = StatusName.submitted ∧ x.reason ≠ some t :=
      hpre x (List.mem_cons_self x xs)
    have hxs : ∀ y ∈ xs, y.name = StatusName.submitted ∧ y.reason ≠ some t :=
      fun y hy => hpre y (List.mem_cons_of_mem x hy)
    simp [waitForStack, hx.1, tillMatch, hx.2, ih (some x) hxs]

/-- Witness for claim C2: on the test sequence SUBMITTED,
SUBMITTED (not yet), SUBMITTED (catch), COMPLETE with till_reason
catch, the loop returns the SUBMITTED status whose reason is catch and
never consumes the trailing COMPLETE; the returned status is ==-equal
to the SUBMITTED constant. -/
theorem claim2_wait_till_reason_witness :
    (waitForStack "test-stack" (some "catch")
        ([SUBMITTED, SubmittedStatus "not yet"] ++
          SubmittedStatus "catch" :: [COMPLETE]) none).2 =
      (some (SubmittedStatus "catch"), [COMPLETE]) ∧
    statusBEq (SubmittedStatus "catch") SUBMITTED = true ∧
    (SubmittedStatus "catch").reason = some "catch" :=
  ⟨claim2_wait_till_reason "test-stack" "catch" [SUBMITTED, SubmittedStatus "not yet"]
      (SubmittedStatus "catch") [COMPLETE] none (by decide) rfl,
   by decide, rfl⟩

/-- Claim C3: a terminal FAILED report always raises StackFailed
carrying the stack name and the failure reason, with the remaining run
results untouched (no retry, no polling), and neither deploy_stack nor
destroy_stack ever returns a FAILED status as a successful outcome —
whether FAILED arrives on the first attempt or out of the polling
loop. -/
theorem claim3_failed_always_raises :
    (∀ (n : String) (wait : Bool) (reason : Option String) (rest : List Status),
      deployStack n wait (Status.mk StatusName.failed reason :: rest) =
        ([logStack n (Status.mk StatusName.failed reason)],
         HookResult.stackFailed n reason, rest) ∧
      destroyStack n wait (Status.mk StatusName.failed reason :: rest) =
        ([logStack n (Status.mk StatusName.failed reason)],
         HookResult.stackFailed n reason, rest)) ∧
    (∀ (n : String) (wait : Bool) (runs : List Status) (s : Status),
      ((deployStack n wait runs).2.1 = HookResult.ok s →
        s.name ≠ StatusName.failed) ∧
      ((destroyStack n wait runs).2.1 = HookResult.ok s →
        s.name ≠ StatusName.failed)) :=
  ⟨fun _ _ _ _ => ⟨rfl, rfl⟩,
   fun n wait runs s =>
    ⟨runActionLoop_ok_not_failed n wait runs s,
     runActionLoop_ok_not_failed n wait runs s⟩⟩

/-- Witness for claim C3: deploy_stack with wait=true on an action
returning only FAILED raises StackFailed with no polling, and the
never-returns-FAILED implications hold at concrete inputs. -/
theorem claim3_failed_always_raises_witness :
    deployStack "test-stack" true [FAILED] =
      (["test-stack:failed"], HookResult.stackFailed "test-stack" none, []) ∧
    COMPLETE.name ≠ StatusName.failed ∧
    SKIPPED.name ≠ StatusName.failed := by
  refine ⟨?_, ?_, ?_⟩
  · have h := (claim3_failed_always_raises.1 "test-stack" true none []).1
    simpa using h
  · exact (claim3_failed_always_raises.2 "test-stack" true [COMPLETE] COMPLETE).1
      (by decide)
  · exact (claim3_failed_always_raises.2 "test-stack" true [SKIPPED] SKIPPED).2
      (by decide)

/-- Claim C4: when the first run returns a terminal non-FAILED status,
deploy_stack returns it immediately — even with wait=true — leaving the
remaining run results unpolled and emitting exactly one summary line,
which for a reasonless status has the form stack-name:status-name. -/
theorem claim4_terminal_first_run (n : String) (wait : Bool) (s : Status)
    (rest : List Status)
    (hterm : s.name ≠ StatusName.submitted) (hfail : s.name ≠ StatusName.failed) :
    deployStack n wait (s :: rest) = ([logStack n s], HookResult.ok s, rest) ∧
    (s.reason = none → logStack n s = n ++ (":" ++ statusNameStr s.name)) := by
  constructor
  · simp [deployStack, runActionLoop, hterm, hfail]
  · intro hr
    simp [logStack, reasonSuffix, hr]

/-- Witness for claim C4: COMPLETE with wait=false and SKIPPED with
wait=true are both returned immediately with a single summary line. -/
theorem claim4_terminal_first_run_witness :
    deployStack "test-stack" false [COMPLETE] =
      (["test-stack:complete"], HookResult.ok COMPLETE, []) ∧
    deployStack "test-stack" true [SKIPPED] =
      (["test-stack:skipped"], HookResult.ok SKIPPED, []) :=
  ⟨(claim4_terminal_first_run "test-stack" false COMPLETE []
      (by decide) (by decide)).1,
   (claim4_terminal_first_run "test-stack" true SKIPPED []
      (by decide) (by decide)).1⟩

/-- Claim C5: change detection considers two statuses equal iff both
name and reason match, so the polling loop logs one transition line per
distinct name-reason pair, not per poll: seeded with
SUBMITTED (original) and fed SUBMITTED (new) then COMPLETE, exactly two
status log lines are emitted. -/
theorem claim5_change_detection :
    (∀ a b : Status,
      sameStatus a b = true ↔ (a.name = b.name ∧ a.reason = b.reason)) ∧
    (waitForStack "test-stack" (some "catch") [SubmittedStatus "new", COMPLETE]
        (some (SubmittedStatus "original"))).1 =
      ["test-stack:submitted (new)", "test-stack:complete"] := by
  constructor
  · intro a b
    simp [sameStatus]
  · rfl

/-- Claim C6: destroy_stack logs a summary with the reason appended in
parentheses when one is present and without it otherwise; on SUBMITTED
then COMPLETE (test successful) it returns the reason-carrying COMPLETE
status (==-equal to the COMPLETE constant) and its final log line is
stack-name:complete (test successful). -/
theorem claim6_destroy_log_format :
    (∀ n : String, destroyStack n true [SUBMITTED, CompleteStatus "test successful"] =
      ([n ++ ":submitted", "waiting for stack to complete...",
        n ++ ":complete (test successful)"],
       HookResult.ok (CompleteStatus "test successful"), []) ∧
      statusBEq (CompleteStatus "test successful") COMPLETE = true) ∧
    (∀ (n : String) (s : Status) (r : String), s.reason = some r →
      logStack n s = n ++ (":" ++ statusNameStr s.name ++ (" (" ++ r ++ ")"))) ∧
    (∀ (n : String) (s : Status), s.reason = none →
      logStack n s = n ++ (":" ++ statusNameStr s.name)) := by
  refine ⟨fun n => ⟨rfl, rfl⟩, ?_, ?_⟩
  · intro n s r hr
    simp [logStack, reasonSuffix, hr]
  · intro n s hr
    simp [logStack, reasonSuffix, hr]

/-- Witness for claim C6: the two summary formats evaluated at a
reason-carrying and a reasonless status. -/
theorem claim6_destroy_log_format_witness :
    logStack "test-stack" (CompleteStatus "test successful") =
      "test-stack" ++
        (":" ++ statusNameStr StatusName.complete ++ (" (" ++ "test successful" ++ ")")) ∧
    logStack "test-stack" COMPLETE =
      "test-stack" ++ (":" ++ statusNameStr StatusName.complete) :=
  ⟨claim6_destroy_log_format.2.1 "test-stack" (CompleteStatus "test successful")
      "test successful" rfl,
   claim6_destroy_log_format.2.2 "test-stack" COMPLETE rfl⟩

/-- Claim C7: hook.tags is the ordered union of hook-local entries
first and context entries appended; with no explicit tags argument
args.tags defaults to the empty mapping and hook.tags equals the
context tags in context order. -/
theorem claim7_tags_ordered_union :
    (∀ ctxTags : List (String × String),
      hookTags (hookArgTags none) ctxTags = ctxTags) ∧
    hookTags (hookArgTags (some [("arg_tag", "val")])) [("context_tag", "val")] =
      [("arg_tag", "val"), ("context_tag", "val")] ∧
    hookArgTags none = ([] : List (String × String)) := by
  refine ⟨?_, by decide, rfl⟩
  intro ctxTags
  simp [hookTags, hookArgTags]

/-- Claim C8: a StackProxy constructed with only a name exposes that
name, and looking up any other attribute yields the not-found outcome
(the AttributeError) rather than a default. -/
theorem claim8_stack_proxy (nm attrName : String) (h : attrName ≠ "name") :
    (HookStackDefinition.mk nm []).getAttr "name" = some nm ∧
    (HookStackDefinition.mk nm []).getAttr attrName = none := by
  constructor
  · simp [HookStackDefinition.getAttr]
  · simp [HookStackDefinition.getAttr, h]

/-- Witness for claim C8: the proxy built from the name test exposes
name and fails on the attribute invalid. -/
theorem claim8_stack_proxy_witness :
    (HookStackDefinition.mk "test" []).getAttr "name" = some "test" ∧
    (HookStackDefinition.mk "test" []).getAttr "invalid" = none :=
  claim8_stack_proxy "test" "invalid" (by decide)

/-- Claim C9: download_tf_release compares the digest listed in the
SHA256SUMS file against the archive's SHA-256 digest; on mismatch it
logs an error and exits with status 1 without extracting or installing
the binary, and only on a match does it extract the archive into the
version directory and make the binary executable (and never exits with
an error). -/
theorem claim9_checksum_verification (tf_hash archive_sha256 : String) :
    (tf_hash ≠ archive_sha256 →
      download_tf_release tf_hash archive_sha256 =
        [TfStep.logError, TfStep.exitProgram 1] ∧
      TfStep.extractArchive ∉ download_tf_release tf_hash archive_sha256 ∧
      TfStep.chmodExecutable ∉ download_tf_release tf_hash archive_sha256) ∧
    (tf_hash = archive_sha256 →
      TfStep.extractArchive ∈ download_tf_release tf_hash archive_sha256 ∧
      TfStep.chmodExecutable ∈ download_tf_release tf_hash archive_sha256 ∧
      ∀ c : Nat, TfStep.exitProgram c ∉ download_tf_release tf_hash archive_sha256) := by
  constructor
  · intro hne
    simp [download_tf_release, hne]
  · intro heq
    simp [download_tf_release, heq]

/-- Witness for claim C9: a mismatching digest pair exits with status 1
and a matching pair extracts the archive. -/
theorem claim9_checksum_verification_witness :
    download_tf_release "digest-a" "digest-b" =
      [TfStep.logError, TfStep.exitProgram 1] ∧
    TfStep.extractArchive ∈ download_tf_release "digest-a" "digest-a" :=
  ⟨((claim9_checksum_verification "digest-a" "digest-b").1 (by decide)).1,
   ((claim9_checksum_verification "digest-a" "digest-a").2 rfl).1⟩

/-- Claim C10: the public Status equality operator compares only the
name and ignores the reason — SUBMITTED (catch) is ==-equal to the
reasonless SUBMITTED constant and COMPLETE (test successful) to the
reasonless COMPLETE constant — even though the change-detection
comparison distinguishes them. -/
theorem claim10_public_eq_ignores_reason :
    (∀ (nm : StatusName) (ra rb : Option String),
      statusBEq (Status.mk nm ra) (Status.mk nm rb) = true) ∧
    statusBEq (SubmittedStatus "catch") SUBMITTED = true ∧
    statusBEq (CompleteStatus "test successful") COMPLETE = true ∧
    sameStatus (SubmittedStatus "catch") SUBMITTED = false := by
  refine ⟨fun nm ra rb => ?_, by decide, by decide, by decide⟩
  simp [statusBEq]

end Runway
